import Mathlib

/-!
Verification of the SM3 digest wrapper (`Cryptlib/Hash/CryptSm3.c`).

The file under verification is a thin adaptation layer over an external
SM3 hash provider (OpenSSL's `sm3_init` / `sm3_update` / `sm3_final`).
The provider itself is not part of the repository, so it is modelled here
from the spec's description ("any conformant SM3 implementation") and the
published SM3 standard (GB/T 32905-2016): chaining value, buffered
partial block, total length counter, Merkle–Damgård padding.

Pointers are modelled as `Option`: `none` is NULL, `some v` is a pointer
to memory holding `v`.  Out-parameters are returned as values.  Machine
words are `Nat` reduced modulo `2 ^ 32` where overflow matters.
-/

/-- Modelled from the spec: 32-bit left rotation used by the external SM3
provider's compression function. -/
def rotl32 (x n : Nat) : Nat :=
  ((x <<< (n % 32)) ||| (x >>> (32 - n % 32))) % 2 ^ 32

/-- Modelled from the spec: SM3 permutation P0. -/
def p0 (x : Nat) : Nat := x ^^^ rotl32 x 9 ^^^ rotl32 x 17

/-- Modelled from the spec: SM3 permutation P1. -/
def p1 (x : Nat) : Nat := x ^^^ rotl32 x 15 ^^^ rotl32 x 23

/-- Modelled from the spec: SM3 round constants T_j. -/
def sm3T (j : Nat) : Nat := if j < 16 then 0x79cc4519 else 0x7a879d8a

/-- Modelled from the spec: SM3 boolean function FF_j. -/
def sm3FF (j x y z : Nat) : Nat :=
  if j < 16 then x ^^^ y ^^^ z else (x &&& y) ||| (x &&& z) ||| (y &&& z)

/-- Modelled from the spec: SM3 boolean function GG_j. -/
def sm3GG (j x y z : Nat) : Nat :=
  if j < 16 then x ^^^ y ^^^ z else (x &&& y) ||| ((x ^^^ 0xffffffff) &&& z)

/-- Modelled from the spec: big-endian packing of bytes into 32-bit words. -/
def toWords : List Nat → List Nat
  | b0 :: b1 :: b2 :: b3 :: rest =>
      (((b0 % 256) * 2 ^ 24 + (b1 % 256) * 2 ^ 16 + (b2 % 256) * 2 ^ 8 + b3 % 256)
        % 2 ^ 32) :: toWords rest
  | _ => []

/-- Modelled from the spec: the eight 32-bit working registers of the SM3
compression function (the chaining value). -/
structure Sm3Regs where
  a : Nat
  b : Nat
  c : Nat
  d : Nat
  e : Nat
  f : Nat
  g : Nat
  h : Nat
deriving DecidableEq, Repr

/-- Modelled from the spec: the SM3 initial chaining value IV. -/
def sm3IV : Sm3Regs :=
  { a := 0x7380166f, b := 0x4914b2b9, c := 0x172442d7, d := 0xda8a0600,
    e := 0xa96f30bc, f := 0x163138aa, g := 0xe38dee4d, h := 0xb0fb0e4e }

/-- Modelled from the spec: one step of the SM3 message expansion; `w` holds
the words computed so far and the new word W_j (j = `w.length`) is appended. -/
def sm3NextW (w : List Nat) : Nat :=
  let j := w.length
  p1 (w.getD (j - 16) 0 ^^^ w.getD (j - 9) 0 ^^^ rotl32 (w.getD (j - 3) 0) 15)
    ^^^ rotl32 (w.getD (j - 13) 0) 7 ^^^ w.getD (j - 6) 0

/-- Modelled from the spec: SM3 message expansion of a 64-byte block into the
68 words W_0 .. W_67. -/
def sm3Expand (block : List Nat) : List Nat :=
  (List.range 52).foldl (fun w _ => w ++ [sm3NextW w]) (toWords block)

/-- Modelled from the spec: one round of the SM3 compression function. -/
def sm3Round (w wp : List Nat) (r : Sm3Regs) (j : Nat) : Sm3Regs :=
  let a12 := rotl32 r.a 12
  let ss1 := rotl32 ((a12 + r.e + rotl32 (sm3T j) (j % 32)) % 2 ^ 32) 7
  let ss2 := ss1 ^^^ a12
  let tt1 := (sm3FF j r.a r.b r.c + r.d + ss2 + wp.getD j 0) % 2 ^ 32
  let tt2 := (sm3GG j r.e r.f r.g + r.h + ss1 + w.getD j 0) % 2 ^ 32
  { a := tt1, b := r.a, c := rotl32 r.b 9, d := r.c,
    e := p0 tt2, f := r.e, g := rotl32 r.f 19, h := r.g }

/-- Modelled from the spec: the SM3 compression function CF, absorbing one
64-byte block into the chaining value. -/
def sm3Compress (v : Sm3Regs) (block : List Nat) : Sm3Regs :=
  let w := sm3Expand block
  let wp := (List.range 64).map (fun j => w.getD j 0 ^^^ w.getD (j + 4) 0)
  let r := (List.range 64).foldl (sm3Round w wp) v
  { a := r.a ^^^ v.a, b := r.b ^^^ v.b, c := r.c ^^^ v.c, d := r.d ^^^ v.d,
    e := r.e ^^^ v.e, f := r.f ^^^ v.f, g := r.g ^^^ v.g, h := r.h ^^^ v.h }

/-- Modelled from the spec: feed one byte into the running (chaining value,
buffered partial block) state, compressing whenever a full 64-byte block
accumulates. -/
def feedByte (s : Sm3Regs × List Nat) (b : Nat) : Sm3Regs × List Nat :=
  let buf := s.2 ++ [b]
  if buf.length = 64 then (sm3Compress s.1 buf, []) else (s.1, buf)

/-- Modelled from the spec: the in-progress SM3 state held in the opaque,
caller-allocated context region (OpenSSL's `SM3_CTX`): internal chaining
value, buffered partial block, and total length counter. -/
structure SM3_CTX where
  chain : Sm3Regs
  buf : List Nat
  total : Nat
deriving DecidableEq, Repr

/-- Modelled from the spec: the provider's `sm3_init` — the initial state for
an empty hash. -/
def sm3_init : SM3_CTX := { chain := sm3IV, buf := [], total := 0 }

/-- Modelled from the spec: the provider's `sm3_init` return value (always
success). -/
def sm3_init_ret : Bool := true

/-- Modelled from the spec: the provider's `sm3_update` — absorbs `d` into the
running state. -/
def sm3_update (c : SM3_CTX) (d : List Nat) : SM3_CTX :=
  let s := d.foldl feedByte (c.chain, c.buf)
  { chain := s.1, buf := s.2, total := c.total + d.length }

/-- Modelled from the spec: the provider's `sm3_update` return value (always
success). -/
def sm3_update_ret : Bool := true

/-- Modelled from the spec: big-endian byte serialization of a 32-bit word. -/
def be32 (x : Nat) : List Nat :=
  [x >>> 24 % 256, x >>> 16 % 256, x >>> 8 % 256, x % 256]

/-- Modelled from the spec: big-endian byte serialization of a 64-bit word. -/
def be64 (x : Nat) : List Nat :=
  [x >>> 56 % 256, x >>> 48 % 256, x >>> 40 % 256, x >>> 32 % 256,
   x >>> 24 % 256, x >>> 16 % 256, x >>> 8 % 256, x % 256]

/-- Modelled from the spec: serialization of the chaining value into the
32-byte digest. -/
def regsToBytes (r : Sm3Regs) : List Nat :=
  be32 r.a ++ be32 r.b ++ be32 r.c ++ be32 r.d ++
    be32 r.e ++ be32 r.f ++ be32 r.g ++ be32 r.h

/-- Modelled from the spec: the SM3 padding appended by the provider's
`sm3_final`: the byte `0x80`, zeros up to 56 mod 64, then the total bit
length as a 64-bit big-endian integer. -/
def sm3Pad (bufLen total : Nat) : List Nat :=
  0x80 :: List.replicate ((119 - bufLen % 64) % 64) 0 ++ be64 ((8 * total) % 2 ^ 64)

/-- Modelled from the spec: the 32-byte digest written by the provider's
`sm3_final`. -/
def sm3_final_digest (c : SM3_CTX) : List Nat :=
  let s := (sm3Pad c.buf.length c.total).foldl feedByte (c.chain, c.buf)
  regsToBytes s.1

/-- Modelled from the spec: the provider's `sm3_final` return value (always
success). -/
def sm3_final_ret : Bool := true

/-- Modelled from the spec: byte serialization of the context region with the
layout of OpenSSL's `SM3_CTX` (8 chaining words, the two 32-bit length
counters Nl/Nh, the 64-byte block buffer, the 32-bit fill counter). -/
def SM3_CTX.toBytes (c : SM3_CTX) : List Nat :=
  regsToBytes c.chain
    ++ be32 ((8 * c.total) % 2 ^ 32) ++ be32 ((8 * c.total) / 2 ^ 32 % 2 ^ 32)
    ++ (c.buf ++ List.replicate (64 - c.buf.length) 0)
    ++ be32 c.buf.length

/-- The bytes the provider reads from pointer `data` when told it points at
`n` bytes (`none` is NULL; a NULL pointer with `n = 0` reads nothing). -/
def bytesAt (data : Option (List Nat)) (n : Nat) : List Nat :=
  (data.getD []).take n

/-- `Sm3GetContextSize`: returns `sizeof (SM3_CTX)` (CryptSm3.c, lines
24–34).  Modelled as a function of its (unit) argument so that stability
across invocations is expressible. -/
def Sm3GetContextSize (_ : Unit) : Nat := 108

/-- `Sm3Init` (CryptSm3.c, lines 48–65): NULL check, then delegate to the
provider's `sm3_init`.  Returns the success flag and the contents of the
context region after the call. -/
def Sm3Init (Sm3Context : Option SM3_CTX) : Bool × Option SM3_CTX :=
  match Sm3Context with
  | none => (false, none)
  | some _ => (sm3_init_ret, some sm3_init)

/-- `Sm3Duplicate` (CryptSm3.c, lines 80–97): NULL checks, then
`CopyMem (NewSm3Context, Sm3Context, sizeof (SM3_CTX))`.  Returns the
success flag and the contents of the destination region after the call. -/
def Sm3Duplicate (Sm3Context : Option SM3_CTX) (NewSm3Context : Option SM3_CTX) :
    Bool × Option SM3_CTX :=
  match Sm3Context, NewSm3Context with
  | none, d => (false, d)
  | some _, none => (false, none)
  | some s, some _ => (true, some s)

/-- `Sm3Update` (CryptSm3.c, lines 117–143): NULL check on the context, the
guard `Data == NULL && DataSize != 0`, then delegate to the provider's
`sm3_update`.  Returns the success flag and the contents of the context
region after the call. -/
def Sm3Update (Sm3Context : Option SM3_CTX) (Data : Option (List Nat))
    (DataSize : Nat) : Bool × Option SM3_CTX :=
  match Sm3Context with
  | none => (false, none)
  | some c =>
      if Data.isNone ∧ DataSize ≠ 0 then (false, some c)
      else (sm3_update_ret, some (sm3_update c (bytesAt Data DataSize)))

/-- `Sm3Final` (CryptSm3.c, lines 165–183): NULL checks, then delegate to the
provider's `sm3_final`.  `HashValue` is the out-pointer for the digest
(`none` is NULL); the result carries the success flag and the 32 bytes
written through it, if any. -/
def Sm3Final (Sm3Context : Option SM3_CTX) (HashValue : Option Unit) :
    Bool × Option (List Nat) :=
  match Sm3Context, HashValue with
  | none, _ => (false, none)
  | some _, none => (false, none)
  | some c, some _ => (sm3_final_ret, some (sm3_final_digest c))

/-- `Sm3HashAll` (CryptSm3.c, lines 203–231): NULL checks, then
`sm3_init; sm3_update; sm3_final` on a stack-local context, ignoring the
provider's return values, and `return TRUE`. -/
def Sm3HashAll (Data : Option (List Nat)) (DataSize : Nat)
    (HashValue : Option Unit) : Bool × Option (List Nat) :=
  match HashValue with
  | none => (false, none)
  | some _ =>
      if Data.isNone ∧ DataSize ≠ 0 then (false, none)
      else
        let c := sm3_init
        let c := sm3_update c (bytesAt Data DataSize)
        (true, some (sm3_final_digest c))

/-- Incremental absorption composes: updating with `d1` then `d2` is the same
as updating once with `d1 ++ d2`.  This is the key algebraic property of the
provider's running state. -/
theorem sm3_update_append (c : SM3_CTX) (d1 d2 : List Nat) :
    sm3_update (sm3_update c d1) d2 = sm3_update c (d1 ++ d2) := by
  simp [sm3_update, List.foldl_append, Nat.add_assoc]

/-- A zero-length update leaves the context unchanged. -/
theorem sm3_update_nil (c : SM3_CTX) : sm3_update c [] = c := rfl

/-- C1: Chunking invariance — for every byte sequence `d1 ++ d2`, the digest
produced by `Init; Update(d1); Update(d2); Final` equals the digest produced
by `Init; Update(d1 ++ d2); Final`, and both equal the digest written by
`HashAll(d1 ++ d2)`. -/
theorem sm3_chunking_invariance (r : SM3_CTX) (d1 d2 : List Nat) :
    (Sm3Final (Sm3Update (Sm3Update (Sm3Init (some r)).2 (some d1) d1.length).2
        (some d2) d2.length).2 (some ())).2
      = (Sm3Final (Sm3Update (Sm3Init (some r)).2 (some (d1 ++ d2))
          (d1 ++ d2).length).2 (some ())).2
    ∧ (Sm3Final (Sm3Update (Sm3Update (Sm3Init (some r)).2 (some d1) d1.length).2
        (some d2) d2.length).2 (some ())).2
      = (Sm3HashAll (some (d1 ++ d2)) (d1 ++ d2).length (some ())).2 := by
  constructor <;>
    simp [Sm3Init, Sm3Update, Sm3Final, Sm3HashAll, bytesAt, sm3_init_ret,
      sm3_update_ret, sm3_final_ret, sm3_update_append, List.take_append]

set_option maxRecDepth 1000000 in
set_option maxHeartbeats 4000000 in
/-- C2: Known-answer correctness of `HashAll` — with size 0 (data present or
NULL) it writes the standard SM3 digest of the empty string, and on the three
ASCII bytes of "abc" it writes the published SM3 test-vector digest. -/
theorem sm3_hashall_known_answers :
    Sm3HashAll (some []) 0 (some ())
      = (true, some [0x1a, 0xb2, 0x1d, 0x83, 0x55, 0xcf, 0xa1, 0x7f,
                     0x8e, 0x61, 0x19, 0x48, 0x31, 0xe8, 0x1a, 0x8f,
                     0x22, 0xbe, 0xc8, 0xc7, 0x28, 0xfe, 0xfb, 0x74,
                     0x7e, 0xd0, 0x35, 0xeb, 0x50, 0x82, 0xaa, 0x2b])
    ∧ Sm3HashAll none 0 (some ())
      = (true, some [0x1a, 0xb2, 0x1d, 0x83, 0x55, 0xcf, 0xa1, 0x7f,
                     0x8e, 0x61, 0x19, 0x48, 0x31, 0xe8, 0x1a, 0x8f,
                     0x22, 0xbe, 0xc8, 0xc7, 0x28, 0xfe, 0xfb, 0x74,
                     0x7e, 0xd0, 0x35, 0xeb, 0x50, 0x82, 0xaa, 0x2b])
    ∧ Sm3HashAll (some [0x61, 0x62, 0x63]) 3 (some ())
      = (true, some [0x66, 0xc7, 0xf0, 0xf4, 0x62, 0xee, 0xed, 0xd9,
                     0xd1, 0xf2, 0xd4, 0x6b, 0xdc, 0x10, 0xe4, 0xe2,
                     0x41, 0x67, 0xc4, 0x87, 0x5c, 0xf2, 0xf7, 0xa2,
                     0x29, 0x7d, 0xa0, 0x2b, 0x8f, 0x4b, 0xa8, 0xe0]) := by
  refine ⟨by decide, by decide, by decide⟩

/-- C3: Once argument validation passes (`HashValue` non-null, and `Data`
non-null or `DataSize = 0`), `Sm3HashAll` returns success unconditionally —
the provider's return values are never checked. -/
theorem sm3_hashall_total_success (Data : Option (List Nat)) (DataSize : Nat)
    (h : Data ≠ none ∨ DataSize = 0) :
    (Sm3HashAll Data DataSize (some ())).1 = true := by
  match Data with
  | none =>
      rcases h with h | h
      · exact absurd rfl h
      · subst h; simp [Sm3HashAll]
  | some d => simp [Sm3HashAll]

/-- Witness for C3 at a concrete input. -/
theorem sm3_hashall_total_success_witness :
    ((some [1] : Option (List Nat)) ≠ none ∨ (1 : Nat) = 0)
    ∧ (Sm3HashAll (some [1]) 1 (some ())).1 = true :=
  ⟨Or.inl (by decide), sm3_hashall_total_success (some [1]) 1 (Or.inl (by decide))⟩

/-- C4: `Sm3Update` with a NULL data pointer fails for every non-zero size
and leaves the context unchanged, while a NULL data pointer with size 0
succeeds as a no-op. -/
theorem sm3_update_null_data (c : SM3_CTX) (n : Nat) :
    (n ≠ 0 → Sm3Update (some c) none n = (false, some c))
    ∧ Sm3Update (some c) none 0 = (true, some c) := by
  constructor
  · intro hn; simp [Sm3Update, hn]
  · simp [Sm3Update, sm3_update_ret, bytesAt, sm3_update_nil]

/-- Witness for C4 at a concrete context and size. -/
theorem sm3_update_null_data_witness :
    Sm3Update (some sm3_init) none 5 = (false, some sm3_init)
    ∧ Sm3Update (some sm3_init) none 0 = (true, some sm3_init) :=
  ⟨(sm3_update_null_data sm3_init 5).1 (by decide),
   (sm3_update_null_data sm3_init 5).2⟩

/-- C5: `Sm3Init (NULL)` fails, and `Sm3Final` fails whenever its context or
its digest pointer is NULL. -/
theorem sm3_init_final_null_rejection (c : SM3_CTX) (hv : Option Unit) :
    Sm3Init none = (false, none)
    ∧ (Sm3Final none hv).1 = false
    ∧ (Sm3Final (some c) none).1 = false := by
  refine ⟨rfl, ?_, rfl⟩
  cases hv <;> rfl

/-- C6: `Sm3Duplicate` fails when either pointer is NULL; for non-null
pointers the destination region afterwards holds exactly the source context,
byte-for-byte, regardless of its prior contents, and the copied region is
exactly `Sm3GetContextSize` bytes. -/
theorem sm3_duplicate_copy (s dPrior : SM3_CTX) (x : Option SM3_CTX) :
    (Sm3Duplicate none x).1 = false
    ∧ (Sm3Duplicate (some s) none).1 = false
    ∧ Sm3Duplicate (some s) (some dPrior) = (true, some s)
    ∧ (Sm3Duplicate (some s) (some dPrior)).2.map SM3_CTX.toBytes = some s.toBytes
    ∧ (s.buf.length ≤ 64 → s.toBytes.length = Sm3GetContextSize ()) := by
  refine ⟨rfl, rfl, rfl, rfl, ?_⟩
  intro h
  simp [SM3_CTX.toBytes, regsToBytes, be32, Sm3GetContextSize]
  omega

/-- Witness for C6 at a concrete context. -/
theorem sm3_duplicate_copy_witness :
    sm3_init.buf.length ≤ 64
    ∧ sm3_init.toBytes.length = Sm3GetContextSize () :=
  ⟨by decide, (sm3_duplicate_copy sm3_init sm3_init none).2.2.2.2 (by decide)⟩

/-- C7: Fork independence of `Sm3Duplicate` — after feeding `d1` and
duplicating, feeding `d2` to the original and `d2'` to the copy and
finalizing yields the digests of `d1 ++ d2` and `d1 ++ d2'` respectively,
as written by `Sm3HashAll`. -/
theorem sm3_duplicate_fork_independence (r rd : SM3_CTX) (d1 d2 d2' : List Nat) :
    (Sm3Final (Sm3Update (Sm3Update (Sm3Init (some r)).2 (some d1) d1.length).2
        (some d2) d2.length).2 (some ())).2
      = (Sm3HashAll (some (d1 ++ d2)) (d1 ++ d2).length (some ())).2
    ∧ (Sm3Final (Sm3Update (Sm3Duplicate
          (Sm3Update (Sm3Init (some r)).2 (some d1) d1.length).2 (some rd)).2
        (some d2') d2'.length).2 (some ())).2
      = (Sm3HashAll (some (d1 ++ d2')) (d1 ++ d2').length (some ())).2 := by
  constructor <;>
    simp [Sm3Init, Sm3Update, Sm3Duplicate, Sm3Final, Sm3HashAll, bytesAt,
      sm3_init_ret, sm3_update_ret, sm3_final_ret, sm3_update_append,
      List.take_append]

/-- C8: `Sm3GetContextSize` is a fixed non-zero constant, identical across
invocations, and equals the byte size of the serialized context region the
operations read and write. -/
theorem sm3_get_context_size_spec (u v : Unit) (c : SM3_CTX) :
    Sm3GetContextSize u = Sm3GetContextSize v
    ∧ Sm3GetContextSize u = 108
    ∧ 0 < Sm3GetContextSize u
    ∧ (c.buf.length ≤ 64 → c.toBytes.length = Sm3GetContextSize u) := by
  refine ⟨rfl, rfl, by simp [Sm3GetContextSize], ?_⟩
  intro h
  simp [SM3_CTX.toBytes, regsToBytes, be32, Sm3GetContextSize]
  omega

/-- Witness for C8 at a concrete context. -/
theorem sm3_get_context_size_spec_witness :
    sm3_init.buf.length ≤ 64
    ∧ sm3_init.toBytes.length = Sm3GetContextSize () :=
  ⟨by decide, (sm3_get_context_size_spec () () sm3_init).2.2.2 (by decide)⟩

/-- C9: Determinism — `Sm3HashAll` is a pure function of its explicit
arguments: a repeated call with equal inputs returns the identical result,
and the result depends only on the `DataSize` bytes actually read from the
data pointer (bytes beyond them, and any other state, are irrelevant). -/
theorem sm3_hashall_deterministic (d extra : List Nat) (n : Nat) (hv : Option Unit)
    (h : n ≤ d.length) :
    Sm3HashAll (some d) n hv = Sm3HashAll (some d) n hv
    ∧ Sm3HashAll (some (d ++ extra)) n hv = Sm3HashAll (some d) n hv := by
  refine ⟨rfl, ?_⟩
  simp [Sm3HashAll, bytesAt, List.take_append_of_le_length h]

/-- Witness for C9 at a concrete input. -/
theorem sm3_hashall_deterministic_witness :
    (1 : Nat) ≤ [7].length
    ∧ Sm3HashAll (some ([7] ++ [9])) 1 (some ()) = Sm3HashAll (some [7]) 1 (some ()) :=
  ⟨by decide, (sm3_hashall_deterministic [7] [9] 1 (some ()) (by decide)).2⟩

/-- C10: Atomicity of `Sm3Update`'s argument-validation failure — when the
data pointer is NULL and the size non-zero, the call fails and the context
region is byte-for-byte unchanged. -/
theorem sm3_update_validation_atomic (c : SM3_CTX) (n : Nat) (h : n ≠ 0) :
    Sm3Update (some c) none n = (false, some c)
    ∧ (Sm3Update (some c) none n).2.map SM3_CTX.toBytes = some c.toBytes := by
  simp [Sm3Update, h]

/-- Witness for C10 at a concrete context and size. -/
theorem sm3_update_validation_atomic_witness :
    Sm3Update (some sm3_init) none 1 = (false, some sm3_init)
    ∧ (Sm3Update (some sm3_init) none 1).2.map SM3_CTX.toBytes = some sm3_init.toBytes :=
  sm3_update_validation_atomic sm3_init 1 (by decide)
